import Mathlib

/-!
# Verification of the karat master-data engine (AurifyAE/bullion-system-node)

Shallow embedding of the karat master-data validation and lifecycle engine:

* `src/models/modules/KaratMaster.js` — the Mongoose schema (field constraints,
  the `pre('save')` hook, the statics `isKaratCodeExists` and `getByDivision`);
* `src/unnamed/part_000` — the HTTP controller (`createKarat`, `updateKarat`,
  `bulkPermanentDeleteKarats`, `bulkUpdateKaratStatus`, `toggleKaratStatus`).

The service layer (`KaratMasterService`) is not part of the provided sources;
its operations are modelled from the spec (each such definition is marked
`Modelled from the spec:`).

Conventions of the embedding:

* JavaScript numbers reaching the numeric request fields are modelled by
  `JsNum`: absent (`undefined`), coercing to `NaN`, or coercing to a rational.
* JavaScript strings are Lean `String`s; `jsTrim` / `jsToUpper` model
  `String.prototype.trim` / `toUpperCase` (ASCII case mapping).
* A thrown `AppError` is modelled by `Except.error`; since the controller
  throws before any write reaches the store, an error result carries no store,
  which models "no record is persisted on failure".
* The persistent store is a `List KaratRecord`; Mongo `_id`s are strings.
-/

/-- JavaScript whitespace test (model of the `trim` character class). -/
def jsWS (c : Char) : Bool := c.isWhitespace

/-- Drop leading and trailing whitespace from a character list. -/
def trimChars (l : List Char) : List Char :=
  ((l.dropWhile jsWS).reverse.dropWhile jsWS).reverse

/-- Model of `String.prototype.trim`. -/
def jsTrim (s : String) : String := ⟨trimChars s.data⟩

/-- `[A-Z]` test, via code points. -/
def isUpperAZ (c : Char) : Bool := 65 ≤ c.toNat && c.toNat ≤ 90

/-- `[0-9]` test, via code points. -/
def isDigit09 (c : Char) : Bool := 48 ≤ c.toNat && c.toNat ≤ 57

/-- ASCII uppercase mapping on one character (model of `toUpperCase`). -/
def jsUpChar (c : Char) : Char :=
  if 97 ≤ c.toNat ∧ c.toNat ≤ 122 then Char.ofNat (c.toNat - 32) else c

/-- Model of `String.prototype.toUpperCase` (ASCII range). -/
def jsToUpper (s : String) : String := ⟨s.data.map jsUpChar⟩

/-- JavaScript falsiness of an optional string field: absent or empty. -/
def strFalsy : Option String → Bool
  | none => true
  | some s => s.data.isEmpty

/-- A numeric JSON request field after JavaScript coercion: absent, a value
that coerces to `NaN`, or a value that coerces to a (finite) number.  The
model assumes a supplied value coerces to the same rational under `Number()`
and `parseFloat` (true for numbers and ordinary numeric strings). -/
inductive JsNum where
  | undefined : JsNum
  | nan : JsNum
  | val : ℚ → JsNum
deriving Repr, DecidableEq

/-- Model of the global `isNaN` on a request field (`isNaN(undefined)` is
`true`; it is only reached after the `undefined` presence checks anyway). -/
def jsIsNaN : JsNum → Bool
  | .undefined => true
  | .nan => true
  | .val _ => false

/-- Model of `parseFloat` on a field already known to pass `isNaN`. -/
def parseFloatD : JsNum → ℚ
  | .val x => x
  | _ => 0

/-- A persisted `KaratMaster` document (schema of
`src/models/modules/KaratMaster.js`).  `id` models the Mongo `_id` string;
`createdAt`/`updatedAt` are store-managed and irrelevant to the claims. -/
structure KaratRecord where
  id : String
  karatCode : String
  division : String
  description : String
  standardPurity : ℚ
  minimum : ℚ
  maximum : ℚ
  isActive : Bool
  status : String
  createdBy : String
  updatedBy : Option String
deriving Repr, DecidableEq

/-- The persistent store: the collection of `KaratMaster` documents. -/
abbrev KaratStore := List KaratRecord

/-- The typed failures thrown via `createAppError` (plus the untyped
`ValidationError` raised by the schema, and a JavaScript `ReferenceError`
for an unbound identifier). -/
inductive AppError where
  | REQUIRED_FIELDS_MISSING : AppError
  | INVALID_NUMERIC_VALUES : AppError
  | INVALID_PURITY_RANGE : AppError
  | INVALID_VALUE_RANGE : AppError
  | INVALID_MIN_MAX_RANGE : AppError
  | INVALID_PURITY : AppError
  | INVALID_MINIMUM : AppError
  | INVALID_MAXIMUM : AppError
  | DUPLICATE_CODE : AppError
  | VALIDATION_ERROR : AppError
  | NOT_FOUND : AppError
  | ID_REQUIRED : AppError
  | IDS_REQUIRED : AppError
  | INVALID_ID_FORMAT : List String → AppError
  | INVALID_STATUS : AppError
  | REFERENCE_ERROR : String → AppError
deriving Repr, DecidableEq

/-- The Mongoose setters on `karatCode` (`trim: true`, `uppercase: true`),
applied whenever the field is assigned. -/
def codeSetter (s : String) : String := jsToUpper (jsTrim s)

/-- Schema-level validation of a document, from `KaratMasterSchema`:
required string fields non-empty, `karatCode` ≤ 10 chars matching
`^[A-Z0-9]+$`, `description` ≤ 200 chars, `standardPurity ∈ [0,100]`,
`minimum ≥ 0`, `maximum ≥ 0`, `status` in the enum. -/
def schemaValidate (r : KaratRecord) : Bool :=
  !r.karatCode.data.isEmpty &&
  r.karatCode.data.length ≤ 10 &&
  r.karatCode.data.all (fun c => isUpperAZ c || isDigit09 c) &&
  !r.division.data.isEmpty &&
  !r.description.data.isEmpty &&
  r.description.data.length ≤ 200 &&
  decide (0 ≤ r.standardPurity) && decide (r.standardPurity ≤ 100) &&
  decide (0 ≤ r.minimum) && decide (0 ≤ r.maximum) &&
  (r.status == "active" || r.status == "inactive") &&
  !r.createdBy.data.isEmpty

/-- The `pre('save')` hook of `KaratMasterSchema`: uppercase `karatCode`,
then reject the document when `minimum >= maximum` (a `ValidationError`). -/
def preSave (r : KaratRecord) : Except AppError KaratRecord :=
  if r.minimum ≥ r.maximum then .error .VALIDATION_ERROR
  else .ok { r with karatCode := jsToUpper r.karatCode }

/-- The static `KaratMasterSchema.statics.isKaratCodeExists`: is there a
document with this (uppercased) code in this division, excluding `excludeId`
when supplied? -/
def isKaratCodeExists (store : KaratStore) (karatCode divisionId : String)
    (excludeId : Option String) : Bool :=
  store.any (fun r =>
    r.karatCode == jsToUpper karatCode && r.division == divisionId &&
    (match excludeId with
     | none => true
     | some e => r.id != e))

/-- Order on documents by `karatCode`, as in `.sort({ karatCode: 1 })`. -/
def codeLE (a b : KaratRecord) : Prop := a.karatCode ≤ b.karatCode

instance : DecidableRel codeLE := fun a b =>
  inferInstanceAs (Decidable (a.karatCode ≤ b.karatCode))

instance : IsTotal KaratRecord codeLE :=
  ⟨fun a b => le_total a.karatCode b.karatCode⟩

instance : IsTrans KaratRecord codeLE :=
  ⟨fun _ _ _ h1 h2 => le_trans h1 h2⟩

/-- The filter of `KaratMasterSchema.statics.getByDivision`. -/
def byDivisionPred (divisionId : String) (r : KaratRecord) : Bool :=
  r.division == divisionId && r.status == "active" && r.isActive

/-- The static `KaratMasterSchema.statics.getByDivision`: all documents of
the division with `status: "active"` and `isActive: true`, sorted by
`karatCode` ascending. -/
def getByDivision (store : KaratStore) (divisionId : String) : List KaratRecord :=
  List.insertionSort codeLE (store.filter (byDivisionPred divisionId))

/-- The body of a create request (`req.body` of `createKarat`). -/
structure CreateBody where
  karatCode : Option String
  division : Option String
  description : Option String
  standardPurity : JsNum
  minimum : JsNum
  maximum : JsNum
deriving Repr, DecidableEq

/-- The normalized field set the create controller hands to the service. -/
structure KaratData where
  karatCode : String
  division : String
  description : String
  standardPurity : ℚ
  minimum : ℚ
  maximum : ℚ
deriving Repr, DecidableEq

/-- The body of an update request (`req.body` of `updateKarat`); every field
is optional because updates are partial. -/
structure UpdateBody where
  karatCode : Option String
  division : Option String
  description : Option String
  standardPurity : JsNum
  minimum : JsNum
  maximum : JsNum
  status : Option String
  isActive : Option Bool
deriving Repr, DecidableEq

/-- The update body with every field absent. -/
def emptyUpdate : UpdateBody := ⟨none, none, none, .undefined, .undefined, .undefined, none, none⟩

/-- Modelled from the spec: `KaratMasterService.createKarat` is not among the
provided sources.  Per §4.3 it checks uniqueness (`DuplicateCode`) and then
persists a new record with `createdBy = actorId` and status/active defaulted
to active; persisting runs the schema validation and the `pre('save')` hook
of `KaratMaster.js`.  `newId` models the store-assigned identifier. -/
def newRecord (d : KaratData) (adminId newId : String) : KaratRecord :=
  { id := newId, karatCode := codeSetter d.karatCode, division := d.division,
    description := jsTrim d.description, standardPurity := d.standardPurity,
    minimum := d.minimum, maximum := d.maximum, isActive := true,
    status := "active", createdBy := adminId, updatedBy := none }

def KaratMasterService.createKarat (store : KaratStore) (d : KaratData)
    (adminId : String) (newId : String) : Except AppError (KaratStore × KaratRecord) :=
  if isKaratCodeExists store d.karatCode d.division none then
    .error .DUPLICATE_CODE
  else if !(schemaValidate (newRecord d adminId newId)) then .error .VALIDATION_ERROR
  else match preSave (newRecord d adminId newId) with
    | .error e => .error e
    | .ok r' => .ok (store ++ [r'], r')

/-- Modelled from the spec: `KaratMasterService.getKaratById` is not among the
provided sources.  Per §4.3, `getById(id)` fetches a record and fails with
`NotFound` if absent. -/
def KaratMasterService.getKaratById (store : KaratStore) (id : String) :
    Except AppError KaratRecord :=
  match store.find? (fun r => r.id == id) with
  | none => .error .NOT_FOUND
  | some r => .ok r

/-- The merge of a partial update onto the current record, with the Mongoose
setters applied to the assigned fields (`karatCode` trimmed and uppercased,
`description` trimmed) and `updatedBy` stamped. -/
def applyUpdate (cur : KaratRecord) (u : UpdateBody) (adminId : String) : KaratRecord :=
  { cur with
    karatCode := match u.karatCode with | some s => codeSetter s | none => cur.karatCode
    division := u.division.getD cur.division
    description := match u.description with | some s => jsTrim s | none => cur.description
    standardPurity := match u.standardPurity with | .val x => x | _ => cur.standardPurity
    minimum := match u.minimum with | .val x => x | _ => cur.minimum
    maximum := match u.maximum with | .val x => x | _ => cur.maximum
    status := u.status.getD cur.status
    isActive := u.isActive.getD cur.isActive
    updatedBy := some adminId }

/-- The final stage of the modelled service update: re-check
`minimum < maximum` on the resolved final pair (`InvalidMinMaxRange`), run
the schema validation, and persist the merged record in place. -/
def updateCommit (store : KaratStore) (id : String) (cur : KaratRecord)
    (u : UpdateBody) (adminId : String) : Except AppError (KaratStore × KaratRecord) :=
  if decide ((applyUpdate cur u adminId).minimum ≥ (applyUpdate cur u adminId).maximum) then
    .error .INVALID_MIN_MAX_RANGE
  else if !(schemaValidate (applyUpdate cur u adminId)) then .error .VALIDATION_ERROR
  else .ok (store.map (fun r => if r.id == id then applyUpdate cur u adminId else r),
            applyUpdate cur u adminId)

/-- Modelled from the spec: `KaratMasterService.updateKarat` is not among the
provided sources.  Per §4.3 it loads the current record (`NotFound` if
missing), merges the partial fields, runs the Uniqueness Resolver when code
or division changed (`DuplicateCode`), re-checks `minimum < maximum` on the
resolved final pair (`InvalidMinMaxRange`, §4.1/§7 — this is also what the
`pre('save')` hook of `KaratMaster.js` enforces on the merged document), runs
the schema validation, and persists the merged record. -/
def KaratMasterService.updateKarat (store : KaratStore) (id : String)
    (u : UpdateBody) (adminId : String) : Except AppError (KaratStore × KaratRecord) :=
  match store.find? (fun r => r.id == id) with
  | none => .error .NOT_FOUND
  | some cur =>
    if ((applyUpdate cur u adminId).karatCode != cur.karatCode ||
        (applyUpdate cur u adminId).division != cur.division) &&
        isKaratCodeExists store (applyUpdate cur u adminId).karatCode
          (applyUpdate cur u adminId).division (some id) then
      .error .DUPLICATE_CODE
    else updateCommit store id cur u adminId

/-- Modelled from the spec: `KaratMasterService.bulkUpdateStatus` is not
among the provided sources.  Per §4.4 it applies the status and the
synchronized active flag to every matching record, stamping `updatedBy`, and
returns `matchedCount` (records found) and `modifiedCount` (records whose
value actually changed) separately. -/
def KaratMasterService.bulkUpdateStatus (store : KaratStore) (ids : List String)
    (status : String) (adminId : String) : Except AppError (KaratStore × Nat × Nat) :=
  let change := fun (r : KaratRecord) =>
    { r with status := status, isActive := status == "active", updatedBy := some adminId }
  let newStore := store.map (fun r => if ids.contains r.id then change r else r)
  let matchedCount := store.countP (fun r => ids.contains r.id)
  let modifiedCount := store.countP (fun r =>
    ids.contains r.id && (r.status != status || r.isActive != (status == "active")))
  .ok (newStore, matchedCount, modifiedCount)

/-- JavaScript falsiness of the optional `ids` array: absent or empty (the
source also rejects a non-array value, which the typed model cannot carry). -/
def idsFalsy : Option (List String) → Bool
  | none => true
  | some l => l.isEmpty

/-- The required-fields condition of the create controller: a falsy string
field (`!karatCode || !division || !description`) or a strictly-`undefined`
numeric field (`=== undefined`). -/
def requiredMissing (b : CreateBody) : Bool :=
  strFalsy b.karatCode || strFalsy b.division || strFalsy b.description ||
  b.standardPurity == .undefined || b.minimum == .undefined || b.maximum == .undefined

/-- The create controller's `isNaN` condition on the three numeric fields. -/
def someNaN (b : CreateBody) : Bool :=
  jsIsNaN b.standardPurity || jsIsNaN b.minimum || jsIsNaN b.maximum

/-- The create controller's purity range condition. -/
def purityOutOfRange (b : CreateBody) : Bool :=
  decide (parseFloatD b.standardPurity < 0) || decide (parseFloatD b.standardPurity > 100)

/-- The create controller's negativity condition on minimum/maximum. -/
def negativeValue (b : CreateBody) : Bool :=
  decide (parseFloatD b.minimum < 0) || decide (parseFloatD b.maximum < 0)

/-- The create controller's `minimum >= maximum` condition. -/
def minGeMax (b : CreateBody) : Bool :=
  decide (parseFloatD b.minimum ≥ parseFloatD b.maximum)

/-- The controller `createKarat` of `src/unnamed/part_000`: the required-
fields check, the `isNaN` check, the purity range check, the negativity
check, the `minimum >= maximum` check — in that order — then the call to
`KaratMasterService.createKarat` with trimmed strings and parsed numbers. -/
def createKarat (store : KaratStore) (adminId newId : String) (b : CreateBody) :
    Except AppError (KaratStore × KaratRecord) :=
  if requiredMissing b then
    .error .REQUIRED_FIELDS_MISSING
  else if someNaN b then
    .error .INVALID_NUMERIC_VALUES
  else if purityOutOfRange b then
    .error .INVALID_PURITY_RANGE
  else if negativeValue b then
    .error .INVALID_VALUE_RANGE
  else if minGeMax b then
    .error .INVALID_MIN_MAX_RANGE
  else
    KaratMasterService.createKarat store
      { karatCode := jsTrim (b.karatCode.getD ""),
        division := b.division.getD "",
        description := jsTrim (b.description.getD ""),
        standardPurity := parseFloatD b.standardPurity,
        minimum := parseFloatD b.minimum,
        maximum := parseFloatD b.maximum } adminId newId

/-- The controller `updateKarat` of `src/unnamed/part_000`: the id check,
then per-field validation of the supplied numeric fields (`INVALID_PURITY`,
`INVALID_PURITY_RANGE`, `INVALID_MINIMUM`, `INVALID_MAXIMUM`), trimming of
supplied truthy string fields, then the call to
`KaratMasterService.updateKarat`. -/
def updateKarat (store : KaratStore) (id : Option String) (u : UpdateBody)
    (adminId : String) : Except AppError (KaratStore × KaratRecord) :=
  if strFalsy id then .error .ID_REQUIRED
  else if u.standardPurity != .undefined && jsIsNaN u.standardPurity then
    .error .INVALID_PURITY
  else if u.standardPurity != .undefined &&
      (decide (parseFloatD u.standardPurity < 0) ||
       decide (parseFloatD u.standardPurity > 100)) then
    .error .INVALID_PURITY_RANGE
  else if u.minimum != .undefined &&
      (jsIsNaN u.minimum || decide (parseFloatD u.minimum < 0)) then
    .error .INVALID_MINIMUM
  else if u.maximum != .undefined &&
      (jsIsNaN u.maximum || decide (parseFloatD u.maximum < 0)) then
    .error .INVALID_MAXIMUM
  else
    let u' := { u with
      karatCode := match u.karatCode with
        | some s => if s.data.isEmpty then some s else some (jsTrim s)
        | none => none
      description := match u.description with
        | some s => if s.data.isEmpty then some s else some (jsTrim s)
        | none => none }
    KaratMasterService.updateKarat store (id.getD "") u' adminId

/-- The controller `bulkPermanentDeleteKarats` of `src/unnamed/part_000`.
After the empty-ids check, line 253 of the source evaluates
`mongoose.Types.ObjectId.isValid(id)`, but `part_000` imports only
`KaratMasterService` and `createAppError` — the identifier `mongoose` is
unbound, so the expression throws `ReferenceError: mongoose is not defined`
before any id validation or deletion takes place; the `catch` forwards that
error.  The embedding records this as a `REFERENCE_ERROR`. -/
def bulkPermanentDeleteKarats (store : KaratStore) (ids : Option (List String)) :
    Except AppError (KaratStore × Nat) :=
  if idsFalsy ids then .error .IDS_REQUIRED
  else .error (.REFERENCE_ERROR "mongoose")

/-- The controller `bulkUpdateKaratStatus` of `src/unnamed/part_000`: the
empty-ids check (`IDS_REQUIRED`), the status enum check (`INVALID_STATUS`),
then the call to `KaratMasterService.bulkUpdateStatus`. -/
def bulkUpdateKaratStatus (store : KaratStore) (ids : Option (List String))
    (status : Option String) (adminId : String) :
    Except AppError (KaratStore × Nat × Nat) :=
  if idsFalsy ids then .error .IDS_REQUIRED
  else if strFalsy status || !(["active", "inactive"].contains (status.getD "")) then
    .error .INVALID_STATUS
  else
    KaratMasterService.bulkUpdateStatus store (ids.getD []) (status.getD "") adminId

/-- The controller `toggleKaratStatus` of `src/unnamed/part_000`: reads the
current record, computes `newStatus` by flipping on `status === "active"`,
and calls `KaratMasterService.updateKarat` with both `status` and
`isActive := (newStatus === "active")`. -/
def toggleKaratStatus (store : KaratStore) (id : Option String) (adminId : String) :
    Except AppError (KaratStore × KaratRecord) :=
  if strFalsy id then .error .ID_REQUIRED
  else
    match KaratMasterService.getKaratById store (id.getD "") with
    | .error e => .error e
    | .ok cur =>
      KaratMasterService.updateKarat store (id.getD "")
        { emptyUpdate with
          status := some (if cur.status == "active" then "inactive" else "active")
          isActive := some ((if cur.status == "active" then "inactive" else "active")
            == "active") } adminId

/-! ## Helper lemmas -/

/-- A prefix of a list unchanged by `dropWhile` is itself unchanged. -/
theorem dropWhile_of_prefix {α : Type} (p : α → Bool) {y z : List α}
    (hy : y.dropWhile p = y) (hz : z <+: y) : z.dropWhile p = z := by
  cases z with
  | nil => simp
  | cons a z' =>
    obtain ⟨t, ht⟩ := hz
    have hpa : p a = false := by
      by_contra h
      have hpa : p a = true := by simpa using h
      rw [← ht] at hy
      simp only [List.cons_append, List.dropWhile_cons, if_pos hpa] at hy
      have hlen := congrArg List.length hy
      have hle := (List.dropWhile_suffix p (l := z' ++ t)).length_le
      simp at hlen
      have happ : (z' ++ t).length = z'.length + t.length := by simp
      omega
    rw [List.dropWhile_cons, if_neg (by simp [hpa])]

/-- `trimChars` is `dropWhile` then `rdropWhile`. -/
theorem trimChars_eq (l : List Char) :
    trimChars l = List.rdropWhile jsWS (l.dropWhile jsWS) := rfl

/-- Trimming is idempotent. -/
theorem trimChars_idem (l : List Char) : trimChars (trimChars l) = trimChars l := by
  rw [trimChars_eq, trimChars_eq,
    dropWhile_of_prefix jsWS (List.dropWhile_idempotent jsWS l)
      ( List.rdropWhile_prefix _ _),
    List.rdropWhile_idempotent]

/-- `jsTrim` is idempotent. -/
theorem jsTrim_idem (s : String) : jsTrim (jsTrim s) = jsTrim s :=
  congrArg String.mk (trimChars_idem s.data)

/-- Uppercasing fixes a character that is already `[A-Z0-9]`. -/
theorem jsUpChar_fix {c : Char} (h : (isUpperAZ c || isDigit09 c) = true) :
    jsUpChar c = c := by
  unfold jsUpChar
  rw [if_neg]
  unfold isUpperAZ isDigit09 at h
  simp only [Bool.or_eq_true, Bool.and_eq_true, decide_eq_true_eq] at h
  omega

/-- Uppercasing fixes a string whose characters are all `[A-Z0-9]`. -/
theorem jsToUpper_fix {s : String}
    (h : s.data.all (fun c => isUpperAZ c || isDigit09 c) = true) : jsToUpper s = s := by
  unfold jsToUpper
  have hmap : s.data.map jsUpChar = s.data := by
    rw [List.all_eq_true] at h
    calc s.data.map jsUpChar = s.data.map id :=
          List.map_congr_left (fun c hc => jsUpChar_fix (h c hc))
      _ = s.data := List.map_id s.data
  cases s
  simp [hmap]

/-- `find?` by id over a store where exactly the id-matching records were
replaced by `m` (with `m.id = id`). -/
theorem find?_replace (store : KaratStore) (id : String) (m : KaratRecord)
    (hm : m.id = id) :
    (store.map (fun r => if r.id == id then m else r)).find? (fun r => r.id == id)
      = (store.find? (fun r => r.id == id)).map (fun _ => m) := by
  induction store with
  | nil => rfl
  | cons a l ih =>
    simp only [List.map_cons]
    by_cases h : a.id = id
    · rw [if_pos (by simpa using h)]
      rw [List.find?_cons_of_pos _ (by simp [hm]), List.find?_cons_of_pos _ (by simp [h])]
      rfl
    · rw [if_neg (by simpa using h)]
      rw [List.find?_cons_of_neg _ (by simp [h]), List.find?_cons_of_neg _ (by simp [h])]
      exact ih

/-- status="active" and the `isActive` flag agree. -/
def statusSync (r : KaratRecord) : Prop := r.status = "active" ↔ r.isActive = true

instance (r : KaratRecord) : Decidable (statusSync r) :=
  inferInstanceAs (Decidable (_ ↔ _))

/-- A demonstration record used to instantiate theorems on concrete data. -/
def demoRecord : KaratRecord :=
  { id := "507f1f77bcf86cd799439011", karatCode := "K18", division := "D1",
    description := "18 Karat Gold", standardPurity := 75, minimum := 74,
    maximum := 76, isActive := true, status := "active", createdBy := "admin1",
    updatedBy := none }

/-- The service create either fails with `DUPLICATE_CODE` or a schema
`VALIDATION_ERROR`, or appends exactly the one new record. -/
theorem service_create_ok_shape (store : KaratStore) (d : KaratData)
    (adminId newId : String) (s' : KaratStore) (r : KaratRecord)
    (h : KaratMasterService.createKarat store d adminId newId = .ok (s', r)) :
    s' = store ++ [r] := by
  unfold KaratMasterService.createKarat at h
  split at h
  · exact Except.noConfusion h
  · split at h
    · exact Except.noConfusion h
    · split at h
      · exact Except.noConfusion h
      · cases h
        rfl

/-- Every error of the service create is `DUPLICATE_CODE` or
`VALIDATION_ERROR`. -/
theorem service_create_errors (store : KaratStore) (d : KaratData)
    (adminId newId : String) (e : AppError)
    (h : KaratMasterService.createKarat store d adminId newId = .error e) :
    e = .DUPLICATE_CODE ∨ e = .VALIDATION_ERROR := by
  unfold KaratMasterService.createKarat at h
  split at h
  · cases h; exact Or.inl rfl
  · split at h
    · cases h; exact Or.inr rfl
    · split at h
      · rename_i e' heq
        cases h
        unfold preSave at heq
        split at heq
        · cases heq; exact Or.inr rfl
        · exact Except.noConfusion heq
      · exact Except.noConfusion h

/-- The create controller fails with `REQUIRED_FIELDS_MISSING` exactly when
its required-fields condition holds. -/
theorem createKarat_RFM_iff (store : KaratStore) (adminId newId : String)
    (b : CreateBody) :
    createKarat store adminId newId b = .error .REQUIRED_FIELDS_MISSING ↔
      requiredMissing b = true := by
  constructor
  · intro h
    by_contra hq
    unfold createKarat at h
    rw [if_neg hq] at h
    split at h
    · cases h
    · split at h
      · cases h
      · split at h
        · cases h
        · split at h
          · cases h
          · rcases service_create_errors _ _ _ _ _ h with h' | h' <;> cases h'
  · intro h
    unfold createKarat
    rw [if_pos h]

/-! ## Claim theorems -/

/-- C5: for every create call the first violated rule wins, in the fixed
order: required fields → numeric validity → purity range → negativity →
`minimum >= maximum`, each producing its single typed failure; and a
successful create appends exactly the one new record to the store (an error
result carries no store: nothing is persisted on failure). -/
theorem C5_create_first_violation_wins (store : KaratStore) (adminId newId : String)
    (b : CreateBody) :
    (requiredMissing b = true →
      createKarat store adminId newId b = .error .REQUIRED_FIELDS_MISSING) ∧
    (requiredMissing b = false → someNaN b = true →
      createKarat store adminId newId b = .error .INVALID_NUMERIC_VALUES) ∧
    (requiredMissing b = false → someNaN b = false → purityOutOfRange b = true →
      createKarat store adminId newId b = .error .INVALID_PURITY_RANGE) ∧
    (requiredMissing b = false → someNaN b = false → purityOutOfRange b = false →
      negativeValue b = true →
      createKarat store adminId newId b = .error .INVALID_VALUE_RANGE) ∧
    (requiredMissing b = false → someNaN b = false → purityOutOfRange b = false →
      negativeValue b = false → minGeMax b = true →
      createKarat store adminId newId b = .error .INVALID_MIN_MAX_RANGE) ∧
    (∀ s' r, createKarat store adminId newId b = .ok (s', r) → s' = store ++ [r]) := by
  refine ⟨?_, ?_, ?_, ?_, ?_, ?_⟩
  · intro h1
    unfold createKarat
    rw [if_pos h1]
  · intro h1 h2
    unfold createKarat
    rw [if_neg (by simp [h1]), if_pos h2]
  · intro h1 h2 h3
    unfold createKarat
    rw [if_neg (by simp [h1]), if_neg (by simp [h2]), if_pos h3]
  · intro h1 h2 h3 h4
    unfold createKarat
    rw [if_neg (by simp [h1]), if_neg (by simp [h2]), if_neg (by simp [h3]), if_pos h4]
  · intro h1 h2 h3 h4 h5
    unfold createKarat
    rw [if_neg (by simp [h1]), if_neg (by simp [h2]), if_neg (by simp [h3]),
      if_neg (by simp [h4]), if_pos h5]
  · intro s' r h
    unfold createKarat at h
    split at h
    · exact Except.noConfusion h
    · split at h
      · exact Except.noConfusion h
      · split at h
        · exact Except.noConfusion h
        · split at h
          · exact Except.noConfusion h
          · split at h
            · exact Except.noConfusion h
            · exact service_create_ok_shape _ _ _ _ _ _ h

/-- Witness for C5: each of the five typed failures, produced at a concrete
input violating exactly that rule first. -/
theorem C5_create_first_violation_wins_witness :
    createKarat [] "admin1" "id1" ⟨none, none, none, .undefined, .undefined, .undefined⟩
        = .error .REQUIRED_FIELDS_MISSING ∧
    createKarat [] "admin1" "id1" ⟨some "k18", some "D1", some "18K", .nan, .val 1, .val 2⟩
        = .error .INVALID_NUMERIC_VALUES ∧
    createKarat [] "admin1" "id1" ⟨some "k18", some "D1", some "18K", .val 200, .val 1, .val 2⟩
        = .error .INVALID_PURITY_RANGE ∧
    createKarat [] "admin1" "id1" ⟨some "k18", some "D1", some "18K", .val 75, .val (-1), .val 2⟩
        = .error .INVALID_VALUE_RANGE ∧
    createKarat [] "admin1" "id1" ⟨some "k18", some "D1", some "18K", .val 75, .val 5, .val 2⟩
        = .error .INVALID_MIN_MAX_RANGE :=
  ⟨(C5_create_first_violation_wins [] "admin1" "id1" _).1 (by decide),
   (C5_create_first_violation_wins [] "admin1" "id1" _).2.1 (by decide) (by decide),
   (C5_create_first_violation_wins [] "admin1" "id1" _).2.2.1 (by decide) (by decide)
     (by decide),
   (C5_create_first_violation_wins [] "admin1" "id1" _).2.2.2.1 (by decide) (by decide)
     (by decide) (by decide),
   (C5_create_first_violation_wins [] "admin1" "id1" _).2.2.2.2.1 (by decide) (by decide)
     (by decide) (by decide) (by decide)⟩

/-- C10: in the create presence check, a numeric field supplied as `0` is
present (it is compared with `=== undefined`), while a string field supplied
as `""` counts as missing (it is tested for JavaScript falsiness). -/
theorem C10_zero_present_empty_missing (store : KaratStore) (adminId newId : String)
    (b : CreateBody) :
    (b.karatCode = some "" →
      createKarat store adminId newId b = .error .REQUIRED_FIELDS_MISSING) ∧
    (b.division = some "" →
      createKarat store adminId newId b = .error .REQUIRED_FIELDS_MISSING) ∧
    (b.description = some "" →
      createKarat store adminId newId b = .error .REQUIRED_FIELDS_MISSING) ∧
    (strFalsy b.karatCode = false → strFalsy b.division = false →
      strFalsy b.description = false → b.standardPurity = JsNum.val 0 →
      b.minimum ≠ JsNum.undefined → b.maximum ≠ JsNum.undefined →
      createKarat store adminId newId b ≠ .error .REQUIRED_FIELDS_MISSING) ∧
    (strFalsy b.karatCode = false → strFalsy b.division = false →
      strFalsy b.description = false → b.minimum = JsNum.val 0 →
      b.standardPurity ≠ JsNum.undefined → b.maximum ≠ JsNum.undefined →
      createKarat store adminId newId b ≠ .error .REQUIRED_FIELDS_MISSING) ∧
    (strFalsy b.karatCode = false → strFalsy b.division = false →
      strFalsy b.description = false → b.maximum = JsNum.val 0 →
      b.standardPurity ≠ JsNum.undefined → b.minimum ≠ JsNum.undefined →
      createKarat store adminId newId b ≠ .error .REQUIRED_FIELDS_MISSING) := by
  refine ⟨?_, ?_, ?_, ?_, ?_, ?_⟩
  · intro h
    exact (createKarat_RFM_iff store adminId newId b).mpr
      (by simp [requiredMissing, h, strFalsy])
  · intro h
    exact (createKarat_RFM_iff store adminId newId b).mpr
      (by simp [requiredMissing, h, strFalsy])
  · intro h
    exact (createKarat_RFM_iff store adminId newId b).mpr
      (by simp [requiredMissing, h, strFalsy])
  · intro h1 h2 h3 h4 h5 h6 hcon
    have hrm := (createKarat_RFM_iff store adminId newId b).mp hcon
    unfold requiredMissing at hrm
    rw [h1, h2, h3, h4] at hrm
    simp [beq_iff_eq, h5, h6] at hrm
  · intro h1 h2 h3 h4 h5 h6 hcon
    have hrm := (createKarat_RFM_iff store adminId newId b).mp hcon
    unfold requiredMissing at hrm
    rw [h1, h2, h3, h4] at hrm
    simp [beq_iff_eq, h5, h6] at hrm
  · intro h1 h2 h3 h4 h5 h6 hcon
    have hrm := (createKarat_RFM_iff store adminId newId b).mp hcon
    unfold requiredMissing at hrm
    rw [h1, h2, h3, h4] at hrm
    simp [beq_iff_eq, h5, h6] at hrm

/-- Witness for C10: an empty-string `karatCode` triggers the missing-fields
failure; a create whose `minimum` is the number `0` does not (it fails later,
on `minimum >= maximum` being false here — it succeeds). -/
theorem C10_zero_present_empty_missing_witness :
    createKarat [] "admin1" "id1" ⟨some "", some "D1", some "18K", .val 75, .val 1, .val 2⟩
        = .error .REQUIRED_FIELDS_MISSING ∧
    createKarat [] "admin1" "id1" ⟨some "K18", some "D1", some "18K", .val 75, .val 0, .val 2⟩
        ≠ .error .REQUIRED_FIELDS_MISSING :=
  ⟨(C10_zero_present_empty_missing [] "admin1" "id1" _).1 rfl,
   (C10_zero_present_empty_missing [] "admin1" "id1" _).2.2.2.2.1 (by decide) (by decide)
     (by decide) rfl (by decide) (by decide)⟩

/-- C2: contrary to the claim, the source's bulk hard-delete can never
validate ids nor delete: line 253 of `src/unnamed/part_000` reads the
identifier `mongoose`, which the module never imports, so every call with a
non-empty `ids` array — here with one well-formed 24-hex-digit id, and with
one malformed id — throws the `ReferenceError` instead of returning
`INVALID_ID_FORMAT` or deleting; the empty-ids guard still fires first. -/
theorem C2_bulk_delete_throws_reference_error :
    bulkPermanentDeleteKarats [demoRecord] (some ["507f1f77bcf86cd799439011"])
        = .error (.REFERENCE_ERROR "mongoose") ∧
    bulkPermanentDeleteKarats [demoRecord] (some ["not-an-objectid"])
        = .error (.REFERENCE_ERROR "mongoose") ∧
    bulkPermanentDeleteKarats [demoRecord] none = .error .IDS_REQUIRED :=
  ⟨rfl, rfl, rfl⟩

/-- C6: the uniqueness check returns true exactly when some stored record —
other than the excluded one, when an exclusion is supplied — carries the
uppercased code in the given division. -/
theorem C6_isKaratCodeExists_iff (store : KaratStore) (code divisionId : String)
    (excludeId : Option String) :
    isKaratCodeExists store code divisionId excludeId = true ↔
      ∃ r ∈ store, r.karatCode = jsToUpper code ∧ r.division = divisionId ∧
        ∀ e, excludeId = some e → r.id ≠ e := by
  unfold isKaratCodeExists
  rw [List.any_eq_true]
  cases excludeId with
  | none => simp
  | some e => simp [and_assoc]

/-- Witness for C6: the demonstration store contains code `K18` in division
`D1`, found from lookup key `k18` even when some other id is excluded. -/
theorem C6_isKaratCodeExists_iff_witness :
    isKaratCodeExists [demoRecord] "k18" "D1" (some "otherid") = true :=
  (C6_isKaratCodeExists_iff [demoRecord] "k18" "D1" (some "otherid")).mpr
    ⟨demoRecord, by simp, by decide, by decide,
     by intro e he; cases he; decide⟩

/-- C7: `getByDivision` returns a permutation of exactly the stored records
of the division that are active on both markers, sorted by code ascending. -/
theorem C7_getByDivision_spec (store : KaratStore) (divisionId : String) :
    (getByDivision store divisionId).Perm (store.filter (byDivisionPred divisionId)) ∧
    List.Sorted codeLE (getByDivision store divisionId) ∧
    ∀ r, r ∈ getByDivision store divisionId ↔
      r ∈ store ∧ r.division = divisionId ∧ r.status = "active" ∧ r.isActive = true := by
  refine ⟨List.perm_insertionSort codeLE _, List.sorted_insertionSort codeLE _, ?_⟩
  intro r
  unfold getByDivision
  rw [(List.perm_insertionSort codeLE _).mem_iff, List.mem_filter]
  unfold byDivisionPred
  simp [and_assoc]

/-- Witness for C7: on the demonstration store the division listing is the
single active record, and it is sorted. -/
theorem C7_getByDivision_spec_witness :
    List.Sorted codeLE (getByDivision [demoRecord] "D1") ∧
    (demoRecord ∈ getByDivision [demoRecord] "D1" ↔
      demoRecord ∈ [demoRecord] ∧ demoRecord.division = "D1" ∧
      demoRecord.status = "active" ∧ demoRecord.isActive = true) :=
  ⟨(C7_getByDivision_spec [demoRecord] "D1").2.1,
   (C7_getByDivision_spec [demoRecord] "D1").2.2 demoRecord⟩

/-- Components of a passed schema validation needed by the claims. -/
theorem schemaValidate_spec {r : KaratRecord} (h : schemaValidate r = true) :
    r.karatCode.data ≠ [] ∧ r.karatCode.data.length ≤ 10 ∧
    r.karatCode.data.all (fun c => isUpperAZ c || isDigit09 c) = true ∧
    0 ≤ r.standardPurity ∧ r.standardPurity ≤ 100 ∧
    0 ≤ r.minimum ∧ 0 ≤ r.maximum ∧
    (r.status = "active" ∨ r.status = "inactive") := by
  unfold schemaValidate at h
  simp only [Bool.and_eq_true, Bool.or_eq_true, beq_iff_eq, decide_eq_true_eq,
    Bool.not_eq_true', List.isEmpty_eq_false] at h
  tauto

/-- A successful service create stores the validated new record, with the
`pre('save')` uppercase applied, appended to the store. -/
theorem service_create_ok_record (store : KaratStore) (d : KaratData)
    (adminId newId : String) (s' : KaratStore) (r : KaratRecord)
    (h : KaratMasterService.createKarat store d adminId newId = .ok (s', r)) :
    r = { newRecord d adminId newId with
          karatCode := jsToUpper (newRecord d adminId newId).karatCode } ∧
    schemaValidate (newRecord d adminId newId) = true ∧
    r.minimum < r.maximum ∧ s' = store ++ [r] := by
  unfold KaratMasterService.createKarat at h
  split at h
  · exact Except.noConfusion h
  · split at h
    · exact Except.noConfusion h
    · rename_i hvalid
      split at h
      · exact Except.noConfusion h
      · rename_i r'' heq
        cases h
        unfold preSave at heq
        split at heq
        · exact Except.noConfusion heq
        · rename_i hminmax
          cases heq
          refine ⟨rfl, by simpa using hvalid, by simpa using lt_of_not_le hminmax, rfl⟩

/-- C4: a create that passes validation stores the record with its code
equal to the uppercase of the trimmed input code, the code matching
`[A-Z0-9]{1,10}`, and `minimum < maximum`; the record is in the new store. -/
theorem C4_create_stores_normalized_code (store : KaratStore) (adminId newId : String)
    (b : CreateBody) (s' : KaratStore) (r : KaratRecord)
    (h : createKarat store adminId newId b = .ok (s', r)) :
    r.karatCode = jsToUpper (jsTrim (b.karatCode.getD "")) ∧
    r.karatCode.data ≠ [] ∧ r.karatCode.data.length ≤ 10 ∧
    r.karatCode.data.all (fun c => isUpperAZ c || isDigit09 c) = true ∧
    r.minimum < r.maximum ∧ r ∈ s' := by
  unfold createKarat at h
  split at h
  · exact Except.noConfusion h
  · split at h
    · exact Except.noConfusion h
    · split at h
      · exact Except.noConfusion h
      · split at h
        · exact Except.noConfusion h
        · split at h
          · exact Except.noConfusion h
          · obtain ⟨hr, hvalid, hlt, hs⟩ := service_create_ok_record _ _ _ _ _ _ h
            have hall := (schemaValidate_spec hvalid).2.2.1
            have hfix := jsToUpper_fix hall
            have hnr : (newRecord
                { karatCode := jsTrim (b.karatCode.getD ""),
                  division := b.division.getD "",
                  description := jsTrim (b.description.getD ""),
                  standardPurity := parseFloatD b.standardPurity,
                  minimum := parseFloatD b.minimum,
                  maximum := parseFloatD b.maximum } adminId newId).karatCode
                = jsToUpper (jsTrim (b.karatCode.getD "")) := by
              show codeSetter (jsTrim (b.karatCode.getD "")) = _
              unfold codeSetter
              rw [jsTrim_idem]
            have hcode : r.karatCode = jsToUpper (jsTrim (b.karatCode.getD "")) := by
              rw [hr]
              show jsToUpper (newRecord _ adminId newId).karatCode = _
              rw [hfix, hnr]
            refine ⟨hcode, ?_, ?_, ?_, hlt, by rw [hs]; simp⟩
            · rw [hcode, ← hnr]
              exact (schemaValidate_spec hvalid).1
            · rw [hcode, ← hnr]
              exact (schemaValidate_spec hvalid).2.1
            · rw [hcode, ← hnr]
              exact hall

/-- The record stored by the concrete create used to instantiate C4. -/
def c4rec : KaratRecord :=
  { id := "id1", karatCode := "K18", division := "D1", description := "18K Gold",
    standardPurity := 75, minimum := 74, maximum := 76, isActive := true,
    status := "active", createdBy := "admin1", updatedBy := none }

/-- Witness for C4: creating with code `" k18 "` stores code `K18`. -/
theorem C4_create_stores_normalized_code_witness :
    c4rec.karatCode = jsToUpper (jsTrim " k18 ") ∧
    c4rec.karatCode.data ≠ [] ∧ c4rec.karatCode.data.length ≤ 10 ∧
    c4rec.karatCode.data.all (fun c => isUpperAZ c || isDigit09 c) = true ∧
    c4rec.minimum < c4rec.maximum ∧ c4rec ∈ [c4rec] :=
  C4_create_stores_normalized_code [] "admin1" "id1"
    ⟨some " k18 ", some "D1", some "18K Gold", .val 75, .val 74, .val 76⟩
    [c4rec] c4rec rfl

/-- C1: an update supplying only `minimum` is checked against the persisted
`maximum` (and symmetrically); the `minimum < maximum` check runs on the
resolved final pair, failing with `INVALID_MIN_MAX_RANGE` — an error result
carries no store, so the record is left unmodified — and not failing that
way when the resolved pair is in order. -/
theorem C1_update_minmax_on_final_pair (store : KaratStore) (i : String)
    (r : KaratRecord) (adminId : String) (m M : ℚ)
    (hfind : store.find? (fun x => x.id == i) = some r)
    (hne : i.data.isEmpty = false) :
    (0 ≤ m → r.maximum ≤ m →
      updateKarat store (some i) { emptyUpdate with minimum := .val m } adminId
        = .error .INVALID_MIN_MAX_RANGE) ∧
    (0 ≤ M → M ≤ r.minimum →
      updateKarat store (some i) { emptyUpdate with maximum := .val M } adminId
        = .error .INVALID_MIN_MAX_RANGE) ∧
    (0 ≤ m → m < r.maximum →
      updateKarat store (some i) { emptyUpdate with minimum := .val m } adminId
        ≠ .error .INVALID_MIN_MAX_RANGE) := by
  refine ⟨?_, ?_, ?_⟩
  · intro hm0 hge
    unfold updateKarat
    rw [if_neg (by simp [strFalsy, hne])]
    rw [if_neg (by simp [emptyUpdate])]
    rw [if_neg (by simp [emptyUpdate])]
    rw [if_neg (by simp [emptyUpdate, jsIsNaN, parseFloatD, not_lt.mpr hm0])]
    rw [if_neg (by simp [emptyUpdate])]
    unfold KaratMasterService.updateKarat
    simp only [Option.getD, emptyUpdate, hfind]
    rw [if_neg (by simp [applyUpdate])]
    unfold updateCommit
    rw [if_pos (by simp [applyUpdate, emptyUpdate, parseFloatD]; exact hge)]
  · intro hM0 hle
    unfold updateKarat
    rw [if_neg (by simp [strFalsy, hne])]
    rw [if_neg (by simp [emptyUpdate])]
    rw [if_neg (by simp [emptyUpdate])]
    rw [if_neg (by simp [emptyUpdate])]
    rw [if_neg (by simp [emptyUpdate, jsIsNaN, parseFloatD, not_lt.mpr hM0])]
    unfold KaratMasterService.updateKarat
    simp only [Option.getD, emptyUpdate, hfind]
    rw [if_neg (by simp [applyUpdate])]
    unfold updateCommit
    rw [if_pos (by simp [applyUpdate, emptyUpdate, parseFloatD]; exact hle)]
  · intro hm0 hlt
    unfold updateKarat
    rw [if_neg (by simp [strFalsy, hne])]
    rw [if_neg (by simp [emptyUpdate])]
    rw [if_neg (by simp [emptyUpdate])]
    rw [if_neg (by simp [emptyUpdate, jsIsNaN, parseFloatD, not_lt.mpr hm0])]
    rw [if_neg (by simp [emptyUpdate])]
    unfold KaratMasterService.updateKarat
    simp only [Option.getD, emptyUpdate, hfind]
    rw [if_neg (by simp [applyUpdate])]
    unfold updateCommit
    rw [if_neg (by simp [applyUpdate, emptyUpdate, parseFloatD]; exact hlt)]
    split
    · intro hcon
      exact AppError.noConfusion (Except.error.inj hcon)
    · intro hcon
      exact Except.noConfusion hcon

/-- Witness for C1: on the demonstration record (minimum 74, maximum 76),
updating only `minimum` to 80 or only `maximum` to 70 fails with
`INVALID_MIN_MAX_RANGE`; updating only `minimum` to 75 does not. -/
theorem C1_update_minmax_on_final_pair_witness :
    updateKarat [demoRecord] (some "507f1f77bcf86cd799439011")
        { emptyUpdate with minimum := .val 80 } "admin2"
      = .error .INVALID_MIN_MAX_RANGE ∧
    updateKarat [demoRecord] (some "507f1f77bcf86cd799439011")
        { emptyUpdate with maximum := .val 70 } "admin2"
      = .error .INVALID_MIN_MAX_RANGE ∧
    updateKarat [demoRecord] (some "507f1f77bcf86cd799439011")
        { emptyUpdate with minimum := .val 75 } "admin2"
      ≠ .error .INVALID_MIN_MAX_RANGE :=
  ⟨(C1_update_minmax_on_final_pair [demoRecord] "507f1f77bcf86cd799439011" demoRecord
      "admin2" 80 70 rfl rfl).1 (by decide) (by decide),
   (C1_update_minmax_on_final_pair [demoRecord] "507f1f77bcf86cd799439011" demoRecord
      "admin2" 80 70 rfl rfl).2.1 (by decide) (by decide),
   (C1_update_minmax_on_final_pair [demoRecord] "507f1f77bcf86cd799439011" demoRecord
      "admin2" 75 70 rfl rfl).2.2 (by decide) (by decide)⟩

/-- C9: the bulk status update rejects a missing or empty ids array with
`IDS_REQUIRED`, then a status outside {active, inactive} with
`INVALID_STATUS`; otherwise it sets the status and the synchronized
`isActive` flag (stamping `updatedBy`) on exactly the matching records,
returning `matchedCount` = number of records whose id is in the list and
`modifiedCount` = number of those whose status or flag actually changes,
with `modifiedCount ≤ matchedCount`. -/
theorem C9_bulk_update_status (store : KaratStore) (ids : Option (List String))
    (status : Option String) (adminId : String) :
    (idsFalsy ids = true →
      bulkUpdateKaratStatus store ids status adminId = .error .IDS_REQUIRED) ∧
    (idsFalsy ids = false →
      (strFalsy status || !(["active", "inactive"].contains (status.getD ""))) = true →
      bulkUpdateKaratStatus store ids status adminId = .error .INVALID_STATUS) ∧
    (∀ l s, ids = some l → status = some s → l ≠ [] →
      (s = "active" ∨ s = "inactive") →
      bulkUpdateKaratStatus store ids status adminId
        = .ok (store.map (fun r => if l.contains r.id then
                  { r with
                    status := s
                    isActive := s == "active"
                    updatedBy := some adminId }
                else r),
               store.countP (fun r => l.contains r.id),
               store.countP (fun r => l.contains r.id &&
                 (r.status != s || r.isActive != (s == "active")))) ∧
      store.countP (fun r => l.contains r.id &&
          (r.status != s || r.isActive != (s == "active")))
        ≤ store.countP (fun r => l.contains r.id)) := by
  refine ⟨?_, ?_, ?_⟩
  · intro h
    unfold bulkUpdateKaratStatus
    rw [if_pos h]
  · intro h1 h2
    unfold bulkUpdateKaratStatus
    rw [if_neg (by simp [h1]), if_pos h2]
  · rintro l s rfl rfl h3 h4
    constructor
    · unfold bulkUpdateKaratStatus
      rw [if_neg (by simp [idsFalsy, h3])]
      rw [if_neg (by rcases h4 with rfl | rfl <;> decide)]
      rfl
    · exact List.countP_mono_left (fun r _ hp => by
        simp only [Bool.and_eq_true] at hp
        exact hp.1)

/-- A second demonstration record, already inactive. -/
def rInactive : KaratRecord :=
  { id := "aaa111222333444555666777", karatCode := "K22", division := "D1",
    description := "22 Karat", standardPurity := 91, minimum := 90,
    maximum := 92, isActive := false, status := "inactive",
    createdBy := "admin1", updatedBy := none }

/-- Witness for C9: a missing ids array, an invalid status, and the bulk
update of an active and an already-inactive record to "inactive" —
matchedCount 2, modifiedCount 1. -/
theorem C9_bulk_update_status_witness :
    bulkUpdateKaratStatus [] none (some "inactive") "a" = .error .IDS_REQUIRED ∧
    bulkUpdateKaratStatus [demoRecord] (some ["507f1f77bcf86cd799439011"])
        (some "archived") "a" = .error .INVALID_STATUS ∧
    bulkUpdateKaratStatus [demoRecord, rInactive]
        (some ["507f1f77bcf86cd799439011", "aaa111222333444555666777"])
        (some "inactive") "admin3"
      = .ok ([{ demoRecord with
                status := "inactive"
                isActive := false
                updatedBy := some "admin3" },
              { rInactive with updatedBy := some "admin3" }], 2, 1) :=
  ⟨(C9_bulk_update_status [] none (some "inactive") "a").1 rfl,
   (C9_bulk_update_status [demoRecord] (some ["507f1f77bcf86cd799439011"])
      (some "archived") "a").2.1 rfl (by decide),
   ((C9_bulk_update_status [demoRecord, rInactive]
      (some ["507f1f77bcf86cd799439011", "aaa111222333444555666777"])
      (some "inactive") "admin3").2.2 _ _ rfl rfl (by decide) (Or.inr rfl)).1⟩

/-- A successful service update is the merge of the partial body onto the
record found by id, validated, with the store updated in place. -/
theorem service_update_ok_record (store : KaratStore) (i : String) (u : UpdateBody)
    (adminId : String) (s' : KaratStore) (r : KaratRecord)
    (h : KaratMasterService.updateKarat store i u adminId = .ok (s', r)) :
    ∃ cur, store.find? (fun x => x.id == i) = some cur ∧
      r = applyUpdate cur u adminId ∧ schemaValidate r = true ∧
      r.minimum < r.maximum ∧
      s' = store.map (fun x => if x.id == i then r else x) := by
  unfold KaratMasterService.updateKarat at h
  split at h
  · exact Except.noConfusion h
  · rename_i cur hfind
    split at h
    · exact Except.noConfusion h
    · unfold updateCommit at h
      split at h
      · exact Except.noConfusion h
      · rename_i hminmax
        split at h
        · exact Except.noConfusion h
        · rename_i hvalid
          cases h
          exact ⟨cur, hfind, rfl, by simpa using hvalid,
            lt_of_not_le (by simpa using hminmax), rfl⟩

/-- The record produced by the C3 counterexample update. -/
def r3x : KaratRecord :=
  { id := "507f1f77bcf86cd799439011", karatCode := "K18", division := "D1",
    description := "18 Karat Gold", standardPurity := 75, minimum := 74,
    maximum := 76, isActive := true, status := "inactive",
    createdBy := "admin1", updatedBy := some "admin2" }

/-- Counterexample to C3: an update supplying only `status: "inactive"` on
an active record succeeds and leaves `isActive` at `true` — the persisted
record has status "inactive" with active=true, violating the claimed
synchronization after an update. -/
theorem C3_sync_counterexample :
    updateKarat [demoRecord] (some "507f1f77bcf86cd799439011")
        { emptyUpdate with status := some "inactive" } "admin2" = .ok ([r3x], r3x) ∧
    r3x.status = "inactive" ∧ r3x.isActive = true ∧ ¬ statusSync r3x :=
  ⟨rfl, rfl, rfl, by decide⟩

/-- C3 amended: status and active are synchronized after create, toggle, and
bulk status update, and an update that supplies neither `status` nor
`isActive` preserves an existing synchronization; (an update supplying only
one of the two can desynchronize them, as the counterexample shows). -/
theorem C3_status_active_sync_amended (store : KaratStore) :
    (∀ adminId newId b s' r,
      createKarat store adminId newId b = .ok (s', r) → statusSync r) ∧
    (∀ id adminId s' r,
      toggleKaratStatus store id adminId = .ok (s', r) → statusSync r) ∧
    (∀ ids status adminId l s st2 mat mod, ids = some l → status = some s →
      bulkUpdateKaratStatus store ids status adminId = .ok (st2, mat, mod) →
      ∀ rr, rr ∈ st2 → l.contains rr.id = true → statusSync rr) ∧
    (∀ id u adminId s' r, u.status = none → u.isActive = none →
      (∀ cur, store.find? (fun x => x.id == id.getD "") = some cur → statusSync cur) →
      updateKarat store id u adminId = .ok (s', r) → statusSync r) := by
  refine ⟨?_, ?_, ?_, ?_⟩
  · intro adminId newId b s' r h
    unfold createKarat at h
    split at h
    · exact Except.noConfusion h
    · split at h
      · exact Except.noConfusion h
      · split at h
        · exact Except.noConfusion h
        · split at h
          · exact Except.noConfusion h
          · split at h
            · exact Except.noConfusion h
            · obtain ⟨hr, -, -, -⟩ := service_create_ok_record _ _ _ _ _ _ h
              rw [hr]
              exact ⟨fun _ => rfl, fun _ => rfl⟩
  · intro id adminId s' r h
    unfold toggleKaratStatus at h
    split at h
    · exact Except.noConfusion h
    · split at h
      · exact Except.noConfusion h
      · rename_i cur heq
        obtain ⟨cur', -, hr, -, -, -⟩ := service_update_ok_record _ _ _ _ _ _ h
        rw [hr]
        simp [applyUpdate, statusSync, beq_iff_eq]
  · rintro ids status adminId l s st2 mat mod rfl rfl h rr hmem hcont
    unfold bulkUpdateKaratStatus at h
    split at h
    · exact Except.noConfusion h
    · split at h
      · exact Except.noConfusion h
      · unfold KaratMasterService.bulkUpdateStatus at h
        cases h
        rw [List.mem_map] at hmem
        obtain ⟨x, hx, hrr⟩ := hmem
        by_cases hc : ((some l).getD []).contains x.id = true
        · rw [if_pos hc] at hrr
          rw [← hrr]
          simp [statusSync, beq_iff_eq]
        · rw [if_neg hc] at hrr
          rw [← hrr] at hcont
          exact absurd hcont (by simpa using hc)
  · intro id u adminId s' r hst hia hsyncall h
    unfold updateKarat at h
    split at h
    · exact Except.noConfusion h
    · split at h
      · exact Except.noConfusion h
      · split at h
        · exact Except.noConfusion h
        · split at h
          · exact Except.noConfusion h
          · split at h
            · exact Except.noConfusion h
            · obtain ⟨cur, hfind, hr, -, -, -⟩ := service_update_ok_record _ _ _ _ _ _ h
              have hsync := hsyncall cur hfind
              rw [hr]
              simpa [applyUpdate, hst, hia, statusSync] using hsync

/-- Witness for the amended C3: synchronization after a concrete create,
toggle, bulk status update, and a status-free update. -/
theorem C3_status_active_sync_amended_witness :
    statusSync { id := "nid", karatCode := "K9", division := "D2",
                 description := "x", standardPurity := 50, minimum := 1,
                 maximum := 2, isActive := true, status := "active",
                 createdBy := "a1", updatedBy := none } ∧
    statusSync { demoRecord with
                 status := "inactive"
                 isActive := false
                 updatedBy := some "a2" } ∧
    statusSync { demoRecord with
                 status := "inactive"
                 isActive := false
                 updatedBy := some "a3" } ∧
    statusSync { demoRecord with updatedBy := some "a4" } :=
  ⟨(C3_status_active_sync_amended []).1 "a1" "nid"
      ⟨some "K9", some "D2", some "x", .val 50, .val 1, .val 2⟩ _ _ rfl,
   (C3_status_active_sync_amended [demoRecord]).2.1
      (some "507f1f77bcf86cd799439011") "a2" _ _ rfl,
   (C3_status_active_sync_amended [demoRecord]).2.2.1
      (some ["507f1f77bcf86cd799439011"]) (some "inactive") "a3"
      ["507f1f77bcf86cd799439011"] "inactive" _ 1 1 rfl rfl rfl _
      (List.mem_singleton_self _) rfl,
   (C3_status_active_sync_amended [demoRecord]).2.2.2
      (some "507f1f77bcf86cd799439011") emptyUpdate "a4" _ _ rfl rfl
      (fun cur hc => by
        have h2 : some cur = some demoRecord := hc.symm.trans rfl
        injection h2 with h3
        subst h3
        decide) rfl⟩

/-- Replacing only status, active flag and audit stamp keeps a document
schema-valid as long as the new status is in the enum. -/
theorem schemaValidate_status_update (ns : String) (ia : Bool) (ub : Option String)
    {r : KaratRecord} (h : schemaValidate r = true)
    (hns : ns = "active" ∨ ns = "inactive") :
    schemaValidate { r with status := ns, isActive := ia, updatedBy := ub } = true := by
  unfold schemaValidate at h ⊢
  rcases hns with rfl | rfl <;> simp_all

/-- The record produced by one toggle: status flipped on
`status === "active"`, the active flag synchronized, `updatedBy` stamped. -/
def toggled (r : KaratRecord) (adminId : String) : KaratRecord :=
  { r with
    status := if r.status == "active" then "inactive" else "active"
    isActive := (if r.status == "active" then "inactive" else "active") == "active"
    updatedBy := some adminId }

/-- Evaluation of the toggle controller on a found, valid record. -/
theorem toggle_eval (store : KaratStore) (i : String) (r : KaratRecord)
    (adminId : String)
    (hfind : store.find? (fun x => x.id == i) = some r)
    (hne : i.data.isEmpty = false)
    (hvalid : schemaValidate r = true)
    (hlt : r.minimum < r.maximum) :
    toggleKaratStatus store (some i) adminId
      = .ok (store.map (fun x => if x.id == i then toggled r adminId else x),
             toggled r adminId) := by
  have hns : (if r.status == "active" then "inactive" else "active") = "active" ∨
      (if r.status == "active" then "inactive" else "active") = "inactive" := by
    split <;> simp
  have hv2 := schemaValidate_status_update _
    ((if r.status == "active" then "inactive" else "active") == "active")
    (some adminId) hvalid hns
  unfold toggleKaratStatus
  rw [if_neg (by simp [strFalsy, hne])]
  simp only [KaratMasterService.getKaratById, Option.getD, hfind]
  unfold KaratMasterService.updateKarat
  simp only [Option.getD, hfind]
  rw [if_neg (by simp [applyUpdate, emptyUpdate])]
  unfold updateCommit
  rw [if_neg (by simp [applyUpdate, emptyUpdate]; exact hlt)]
  rw [if_neg (by simp only [applyUpdate, emptyUpdate]; simpa using hv2)]
  rfl

/-- A desynchronized record: status "inactive" but the active flag true
(reachable, e.g. through an update supplying only `status`). -/
def rDesync : KaratRecord :=
  { id := "bbb111222333444555666777", karatCode := "K20", division := "D1",
    description := "20 Karat", standardPurity := 83, minimum := 82,
    maximum := 84, isActive := true, status := "inactive",
    createdBy := "admin1", updatedBy := none }

/-- The desynchronized record after one toggle. -/
def rD1 : KaratRecord :=
  { rDesync with status := "active", isActive := true, updatedBy := some "t1" }

/-- The desynchronized record after two toggles. -/
def rD2 : KaratRecord :=
  { rD1 with status := "inactive", isActive := false, updatedBy := some "t1" }

/-- Counterexample to C8: on a record with status "inactive" but active
flag true, two toggles return the status to its original value but leave
the active flag changed — the round trip fails for the `active` field. -/
theorem C8_toggle_roundtrip_counterexample :
    toggleKaratStatus [rDesync] (some "bbb111222333444555666777") "t1"
      = .ok ([rD1], rD1) ∧
    toggleKaratStatus [rD1] (some "bbb111222333444555666777") "t1"
      = .ok ([rD2], rD2) ∧
    rD2.status = rDesync.status ∧ ¬(rD2.isActive = rDesync.isActive) :=
  ⟨rfl, rfl, rfl, by decide⟩

/-- Two consecutive toggles of the same id (the second on the store the
first produced). -/
def toggleTwice (store : KaratStore) (id : Option String) (adminId : String) :
    Except AppError (KaratStore × KaratRecord) :=
  match toggleKaratStatus store id adminId with
  | .error e => .error e
  | .ok (s1, _) => toggleKaratStatus s1 id adminId

/-- C8 amended: toggling an active record yields status "inactive" with
active=false, toggling a non-active record yields "active"/true, and one
toggle always leaves status and active synchronized; two toggles return
`status` to its original value, and return `active` to its original value
provided the record started with status and active synchronized (a
desynchronized start loses the original `active`, as the counterexample
shows). -/
theorem C8_toggle_flip_amended (store : KaratStore) (i : String) (r : KaratRecord)
    (adminId : String)
    (hfind : store.find? (fun x => x.id == i) = some r)
    (hne : i.data.isEmpty = false)
    (hvalid : schemaValidate r = true)
    (hlt : r.minimum < r.maximum) :
    (r.status = "active" →
      toggleKaratStatus store (some i) adminId
        = .ok (store.map (fun x => if x.id == i then toggled r adminId else x),
               toggled r adminId) ∧
      (toggled r adminId).status = "inactive" ∧
      (toggled r adminId).isActive = false) ∧
    (r.status ≠ "active" →
      toggleKaratStatus store (some i) adminId
        = .ok (store.map (fun x => if x.id == i then toggled r adminId else x),
               toggled r adminId) ∧
      (toggled r adminId).status = "active" ∧
      (toggled r adminId).isActive = true) ∧
    statusSync (toggled r adminId) ∧
    (∃ s2, toggleTwice store (some i) adminId
        = .ok (s2, toggled (toggled r adminId) adminId) ∧
      (toggled (toggled r adminId) adminId).status = r.status ∧
      (statusSync r →
        (toggled (toggled r adminId) adminId).isActive = r.isActive)) := by
  have hid : r.id = i := by
    have := List.find?_some hfind
    simpa using this
  have hstat := (schemaValidate_spec hvalid).2.2.2.2.2.2.2
  have h1 := toggle_eval store i r adminId hfind hne hvalid hlt
  have hfind1 : (store.map (fun x => if x.id == i then toggled r adminId else x)).find?
      (fun x => x.id == i) = some (toggled r adminId) := by
    rw [find?_replace store i (toggled r adminId) (by simp [toggled, hid]), hfind]
    rfl
  have hvalid1 : schemaValidate (toggled r adminId) = true := by
    have hns : (if r.status == "active" then "inactive" else "active") = "active" ∨
        (if r.status == "active" then "inactive" else "active") = "inactive" := by
      split <;> simp
    exact schemaValidate_status_update _ _ _ hvalid hns
  have hlt1 : (toggled r adminId).minimum < (toggled r adminId).maximum := hlt
  have h2 := toggle_eval _ i (toggled r adminId) adminId hfind1 hne hvalid1 hlt1
  refine ⟨?_, ?_, ?_, ?_⟩
  · intro hs
    exact ⟨h1, by simp [toggled, hs], by simp [toggled, hs]⟩
  · intro hs
    have hb : (r.status == "active") = false := by
      simpa using hs
    exact ⟨h1, by simp [toggled, hb], by simp [toggled, hb]⟩
  · rcases hstat with hs | hs <;>
      simp [statusSync, toggled, hs]
  · refine ⟨(store.map (fun x => if x.id == i then toggled r adminId else x)).map
        (fun x => if x.id == i then toggled (toggled r adminId) adminId else x),
      ?_, ?_, ?_⟩
    · unfold toggleTwice
      rw [h1]
      exact h2
    · rcases hstat with hs | hs <;> simp [toggled, hs]
    · intro hsync
      rcases hstat with hs | hs
      · simp [toggled, hs, hsync.mp hs]
      · have hia : r.isActive = false := by
          rcases Bool.eq_false_or_eq_true r.isActive with hb | hb
          · exact absurd (hsync.mpr hb) (by simp [hs])
          · exact hb
        simp [toggled, hs, hia]

/-- Witness for the amended C8: toggling the active demonstration record
flips it to inactive/false and leaves it synchronized. -/
theorem C8_toggle_flip_amended_witness :
    (toggleKaratStatus [demoRecord] (some "507f1f77bcf86cd799439011") "t9"
        = .ok ([toggled demoRecord "t9"], toggled demoRecord "t9") ∧
      (toggled demoRecord "t9").status = "inactive" ∧
      (toggled demoRecord "t9").isActive = false) ∧
    statusSync (toggled demoRecord "t9") :=
  ⟨(C8_toggle_flip_amended [demoRecord] "507f1f77bcf86cd799439011" demoRecord "t9"
      rfl rfl (by decide) (by decide)).1 rfl,
   (C8_toggle_flip_amended [demoRecord] "507f1f77bcf86cd799439011" demoRecord "t9"
      rfl rfl (by decide) (by decide)).2.2.1⟩
